import Mathlib

/-
  Verification development for the esphome voice-kit audio subsystem.

  Shallow embedding of the two source files
    src/esphome/components/i2s_audio/speaker/i2s_audio_speaker.cpp
    src/esphome/components/nabu/nabu_media_player.cpp
  Machine ints are modelled as ℤ (with explicit wrapping where the code
  truncates), FreeRTOS event-group words as ℕ bit masks, and the concurrent
  tasks as explicit step functions over per-iteration environment
  observations (what the ring buffer returned, what command bits were set,
  what millis() read), producing a trace of the externally visible actions.
-/

namespace VoiceKit

/-! ### Q15 volume scaling table (i2s_audio_speaker.cpp lines 29-36) -/

/-- Q15 fixed point scaling factors for volume reduction; 100 values for
silence and a reduction of [49, 48.5, ..., 0.5, 0] dB, transcribed from
`q15_volume_scaling_factors` in i2s_audio_speaker.cpp. -/
def q15_volume_scaling_factors : List ℤ :=
  [0, 116, 122, 130, 137, 146, 154, 163, 173, 183, 194, 206, 218, 231, 244,
   259, 274, 291, 308, 326, 345, 366, 388, 411, 435, 461, 488, 517, 548, 580,
   615, 651, 690, 731, 774, 820, 868, 920, 974, 1032, 1094, 1158, 1227, 1300, 1377,
   1459, 1545, 1637, 1734, 1837, 1946, 2061, 2184, 2313, 2450, 2596, 2750, 2913, 3085, 3269,
   3462, 3668, 3885, 4116, 4360, 4619, 4893, 5183, 5490, 5816, 6161, 6527, 6914, 7324, 7758,
   8218, 8706, 9222, 9770, 10349, 10963, 11613, 12302, 13032, 13805, 14624, 15491, 16410, 17384, 18415,
   19508, 20665, 21891, 23189, 24565, 26022, 27566, 29201, 30933, 32767]

/-- Modelled from the spec: `I2SAudioSpeaker::set_volume` (lines 142-146) maps the
volume to a table index with the esphome core helper `remap<ssize_t, float>(volume,
0.0f, 1.0f, 0, 99)`, whose body is not part of this repository's sources; the spec
describes the mapping as a "linear index into the 100-entry table by
`round(volume * 99)`, clamped to table bounds", which is what this definition
implements (volume as an exact rational). -/
def volumeToGainIndex (volume : ℚ) : ℤ :=
  max 0 (min 99 (round (volume * 99)))

/-- Gain factor selected by `I2SAudioSpeaker::set_volume`: the scaling table entry
at the selected index (`this->q15_volume_factor_ = q15_volume_scaling_factors[i]`). -/
def set_volume_gain (volume : ℚ) : ℤ :=
  q15_volume_scaling_factors.getD (volumeToGainIndex volume).toNat 0

/-! ### Q15 multiplication (i2s_audio_speaker.cpp lines 97-102) -/

/-- Truncation of an integer to signed 16-bit two's complement, as performed by the
`(int16_t)` cast when the scaled sample is stored back into the buffer. -/
def toInt16 (x : ℤ) : ℤ := (x + 32768) % 65536 - 32768

/-- One sample of `I2SAudioSpeaker::q15_multiplication`:
`acc = (int32_t) input[i] * (int32_t) c; output[i] = (int16_t) (acc >> 15)`.
The C arithmetic right shift of the (possibly negative) 32-bit accumulator by 15
is floor division by 2^15, which for this positive divisor is Int division `/`. -/
def q15_mul_sample (s c : ℤ) : ℤ := toInt16 (s * c / 32768)

/-- `I2SAudioSpeaker::q15_multiplication` applied in place over a sample buffer. -/
def q15_multiplication (input : List ℤ) (c : ℤ) : List ℤ :=
  input.map (fun s => q15_mul_sample s c)

/-! ### Event group bits (i2s_audio_speaker.cpp lines 38-55) -/

def COMMAND_START : ℕ := 1
def COMMAND_STOP : ℕ := 2
def COMMAND_STOP_GRACEFULLY : ℕ := 4
def MESSAGE_RING_BUFFER_AVAILABLE_TO_WRITE : ℕ := 32
def STATE_STARTING : ℕ := 1024
def STATE_RUNNING : ℕ := 2048
def STATE_STOPPING : ℕ := 4096
def STATE_STOPPED : ℕ := 8192
def ERR_INVALID_STATE : ℕ := 65536
def ERR_INVALID_ARG : ℕ := 131072
def ERR_INVALID_SIZE : ℕ := 262144
def ERR_NO_MEM : ℕ := 524288
def ERR_FAIL : ℕ := 1048576

/-- ESP error codes that `I2SAudioSpeaker::set_event_group_error_` distinguishes. -/
inductive EspErr
  | invalid_state
  | invalid_arg
  | invalid_size
  | no_mem
  | fail
  deriving DecidableEq

/-- Bit set by `I2SAudioSpeaker::set_event_group_error_` (lines 60-80) for each error. -/
def errBit : EspErr → ℕ
  | .invalid_state => ERR_INVALID_STATE
  | .invalid_arg => ERR_INVALID_ARG
  | .invalid_size => ERR_INVALID_SIZE
  | .no_mem => ERR_NO_MEM
  | .fail => ERR_FAIL

/-! ### I2S speaker task model (i2s_audio_speaker.cpp lines 213-341)

The task is modelled as a function from the per-lifecycle environment (allocation
outcomes, driver results, and the sequence of per-iteration observations) to the
trace of externally visible actions it performs, plus a final outcome. -/

/-- Externally visible actions of the speaker task. -/
inductive SpeakerAct
  | setBits (bits : ℕ)      -- xEventGroupSetBits on this->event_group_
  | readRing                -- audio_ring_buffer_->read(...)
  | applyGain               -- q15_multiplication over the data buffer
  | i2sWrite (bytes : ℕ)    -- i2s_write, reporting bytes_written
  | i2sWriteExpand (bytes : ℕ)  -- i2s_write_expand, reporting bytes_written
  | zeroDmaBuffer           -- i2s_zero_dma_buffer
  | i2sStopDriver           -- i2s_stop
  | uninstallDriver         -- i2s_driver_uninstall
  | unlockParent            -- parent_->unlock()
  | waitRingMsgForever      -- delete_task_ blocked forever on the ring-buffer message bit
  | deleteTask              -- vTaskDelete(NULL)
  deriving DecidableEq

/-- How one run of the speaker task ends. -/
inductive TaskOutcome
  | deleted       -- the task reached vTaskDelete(NULL)
  | hungForever   -- the task is blocked forever inside delete_task_
  | stillRunning  -- the modelled observation window ended with the loop still going
  deriving DecidableEq

/-- How the steady-state while loop was left. -/
inductive LoopExit
  | timedOut       -- the while condition (elapsed <= timeout) failed
  | stoppedByCmd   -- break on COMMAND_STOP
  | gracefulDone   -- break on pending graceful stop with no data read
  | outOfTrace     -- the modelled observation window ended first
  deriving DecidableEq

/-- Per-lifecycle constants read by the loop body. -/
structure LoopCfg where
  timeout : ℕ           -- this->timeout_
  stream_bits : ℕ       -- audio_stream_info.bits_per_sample
  out_bits : ℕ          -- this->bits_per_sample_
  q15_volume_factor : ℤ -- this->q15_volume_factor_
  deriving DecidableEq

/-- Environment observations of one loop iteration: millis() readings, the command
bits present in the event group, and the byte counts the ring buffer and the I2S
driver returned. -/
structure IterIn where
  tGuard : ℕ                -- millis() at the while condition
  cmdStop : Bool            -- COMMAND_STOP present in xEventGroupGetBits
  cmdStopGracefully : Bool  -- COMMAND_STOP_GRACEFULLY present
  bytesRead : ℕ             -- result of audio_ring_buffer_->read
  tData : ℕ                 -- millis() recorded when data was received
  bytesWritten : ℕ          -- result reported by i2s_write / i2s_write_expand
  deriving DecidableEq

/-- uint32 elapsed-time computation `millis() - last_data_received_time`. -/
def elapsed32 (now last : ℕ) : ℕ :=
  (now % 4294967296 + 4294967296 - last % 4294967296) % 4294967296

/-- Result of running the steady-state loop over an observation window: the actions
performed, how the loop was left, and the ring-buffer bytes still unconsumed
(assuming no concurrent producer during the window). -/
structure LoopResult where
  acts : List SpeakerAct
  exit : LoopExit
  avail : ℕ
  deriving DecidableEq

/-- Steady-state loop of `I2SAudioSpeaker::speaker_task` (lines 283-332): while the
idle timeout has not elapsed, check COMMAND_STOP (zero the DMA buffer and break),
latch COMMAND_STOP_GRACEFULLY, read from the ring buffer; on data apply the volume
scale when the bit depth is at most 16 and the gain is below unity, write to the
I2S port (expanding narrower samples), flag ERR_INVALID_SIZE on a short write; on
no data zero the DMA buffer and, if a graceful stop is pending, break. -/
def speakerLoop (cfg : LoopCfg) (last : ℕ) (stopGracefully : Bool) (avail : ℕ) :
    List IterIn → LoopResult
  | [] => ⟨[], .outOfTrace, avail⟩
  | it :: rest =>
    if elapsed32 it.tGuard last ≤ cfg.timeout then
      if it.cmdStop then ⟨[SpeakerAct.zeroDmaBuffer], .stoppedByCmd, avail⟩
      else
        let stopG := stopGracefully || it.cmdStopGracefully
        if 0 < it.bytesRead then
          let gainActs := if cfg.stream_bits ≤ 16 ∧ cfg.q15_volume_factor < 32767 then
              [SpeakerAct.applyGain] else []
          let writeActs :=
            if cfg.stream_bits = cfg.out_bits then [SpeakerAct.i2sWrite it.bytesWritten]
            else if cfg.stream_bits < cfg.out_bits then [SpeakerAct.i2sWriteExpand it.bytesWritten]
            else []
          let written := if cfg.stream_bits ≤ cfg.out_bits then it.bytesWritten else 0
          let errActs := if written ≠ it.bytesRead then [SpeakerAct.setBits ERR_INVALID_SIZE] else []
          let r := speakerLoop cfg it.tData stopG (avail - it.bytesRead) rest
          ⟨SpeakerAct.readRing :: (gainActs ++ writeActs ++ errActs ++ r.acts), r.exit, r.avail⟩
        else
          if stopG then ⟨[SpeakerAct.readRing, SpeakerAct.zeroDmaBuffer], .gracefulDone, avail⟩
          else
            let r := speakerLoop cfg last stopG avail rest
            ⟨SpeakerAct.readRing :: SpeakerAct.zeroDmaBuffer :: r.acts, r.exit, r.avail⟩
    else ⟨[], .timedOut, avail⟩

/-- `I2SAudioSpeaker::delete_task_` (lines 213-234): when the ring buffer is
allocated it first blocks (forever, portMAX_DELAY) until
MESSAGE_RING_BUFFER_AVAILABLE_TO_WRITE is present, then releases the buffers, sets
STATE_STOPPED and deletes the task.  If the message bit is never going to be set,
the task is stuck inside the wait and STATE_STOPPED is never reported. -/
def delete_task_acts (ringAllocated msgBitSet : Bool) : List SpeakerAct × TaskOutcome :=
  if ringAllocated ∧ ¬msgBitSet then ([SpeakerAct.waitRingMsgForever], .hungForever)
  else ([SpeakerAct.setBits STATE_STOPPED, SpeakerAct.deleteTask], .deleted)

/-- Teardown performed after the steady-state section (lines 334-341): report
STATE_STOPPING, stop and uninstall the driver, unlock the I2S port, then
delete_task_. -/
def teardown_acts (msgBitSet : Bool) : List SpeakerAct × TaskOutcome :=
  let d := delete_task_acts true msgBitSet
  ([SpeakerAct.setBits STATE_STOPPING, SpeakerAct.i2sStopDriver, SpeakerAct.uninstallDriver,
    SpeakerAct.unlockParent] ++ d.1, d.2)

/-- Did the initial event-group wait deliver a stop request (line 246)? -/
def stop_requested (bits : ℕ) : Bool :=
  (bits &&& (COMMAND_STOP ||| COMMAND_STOP_GRACEFULLY)) != 0

/-- Environment of one lifecycle of the speaker task: the bits delivered by the
initial wait, the initial millis() reading, the allocation/driver outcomes, the
loop constants and the per-iteration observations.  The lifecycle is fresh: the
ring buffer pointer is null when the task starts (delete_task_ resets it) and the
event group holds no leftover message bit. -/
structure TaskEnv where
  startBits : ℕ
  t0 : ℕ
  dataAllocOk : Bool            -- allocator.allocate(...) for data_buffer_
  ringAllocOk : Bool            -- RingBuffer::create(...)
  driverErr : Option EspErr     -- start_i2s_driver_ (lines 148-195)
  streamInfoErr : Option EspErr -- set_i2s_stream_info_ (lines 197-211)
  cfg : LoopCfg
  availAtRun : ℕ                -- ring-buffer bytes buffered when the loop starts
  iters : List IterIn
  deriving DecidableEq

/-- `I2SAudioSpeaker::speaker_task` (lines 236-341) over one lifecycle environment. -/
def speakerTask (env : TaskEnv) : List SpeakerAct × TaskOutcome :=
  if stop_requested env.startBits then
    -- Received a stop signal before the task was requested to start; the ring
    -- buffer is not allocated yet, so delete_task_ does not wait.
    delete_task_acts false false
  else
    let startActs := [SpeakerAct.setBits STATE_STARTING]
    if !env.dataAllocOk || !env.ringAllocOk then
      -- Failed to allocate a buffer; the message bit has never been set, so
      -- delete_task_ hangs whenever the ring buffer allocation did succeed.
      let d := delete_task_acts env.ringAllocOk false
      (startActs ++ SpeakerAct.setBits ERR_NO_MEM :: d.1, d.2)
    else
      match env.driverErr with
      | some e =>
        let d := delete_task_acts true false
        (startActs ++ SpeakerAct.setBits (errBit e) :: d.1, d.2)
      | none =>
        match env.streamInfoErr with
        | some e =>
          let t := teardown_acts false
          (startActs ++ SpeakerAct.setBits (errBit e) :: t.1, t.2)
        | none =>
          let runActs := [SpeakerAct.setBits (STATE_RUNNING ||| MESSAGE_RING_BUFFER_AVAILABLE_TO_WRITE)]
          let r := speakerLoop env.cfg env.t0 false env.availAtRun env.iters
          match r.exit with
          | .outOfTrace => (startActs ++ runActs ++ r.acts, .stillRunning)
          | _ =>
            let t := teardown_acts true
            (startActs ++ runActs ++ r.acts ++ t.1, t.2)

/-! ### Nabu media player speaker task (nabu_media_player.cpp lines 186-338) -/

/-- TaskEvent types sent over the speaker event queue (used by speaker_task and
watch_speaker_). -/
inductive EventType
  | STARTING
  | STARTED
  | IDLE
  | RUNNING
  | STOPPING
  | STOPPED
  | WARNING
  deriving DecidableEq

/-- Environment observation for one iteration of the nabu speaker task loop
(lines 279-323): either the command queue delivered a STOP, or the combine
streamer returned data (with the I2S write accepting all of it or not), or no
data arrived. -/
inductive NabuIter
  | stopCmd
  | data (writeOk : Bool)
  | noData
  deriving DecidableEq

/-- Events emitted by the steady-state loop of `NabuMediaPlayer::speaker_task`:
RUNNING after a full write, WARNING after a short write, IDLE when no data
arrived; the loop breaks (emitting nothing) at a STOP command. -/
def nabu_loop_events : List NabuIter → List EventType
  | [] => []
  | .stopCmd :: _ => []
  | .data ok :: rest => (if ok then EventType.RUNNING else EventType.WARNING) :: nabu_loop_events rest
  | .noData :: rest => EventType.IDLE :: nabu_loop_events rest

/-- Whether the loop was left via the STOP command within the observation window. -/
def nabu_loop_breaks : List NabuIter → Bool
  | [] => false
  | .stopCmd :: _ => true
  | .data _ :: rest => nabu_loop_breaks rest
  | .noData :: rest => nabu_loop_breaks rest

/-- Status-event trace of one `NabuMediaPlayer::speaker_task` lifecycle: STARTING,
then on a setup failure (buffer allocation, driver install, or pin setup) WARNING
followed directly by STOPPED; otherwise STARTED, the loop events, and - when the
loop is broken by a STOP command - STOPPING then STOPPED. -/
def nabu_speaker_trace (allocOk installOk setPinOk : Bool) (iters : List NabuIter) :
    List EventType :=
  EventType.STARTING ::
    (if !allocOk || !installOk || !setPinOk then [EventType.WARNING, EventType.STOPPED]
     else
       EventType.STARTED ::
         (nabu_loop_events iters ++
           (if nabu_loop_breaks iters then [EventType.STOPPING, EventType.STOPPED] else [])))

/-- Lifecycle stage of a status event; WARNING carries no stage (it may
interleave anywhere). -/
def stageRank : EventType → Option ℕ
  | .STARTING => some 0
  | .STARTED => some 1
  | .RUNNING => some 2
  | .IDLE => some 2
  | .STOPPING => some 3
  | .STOPPED => some 4
  | .WARNING => none

/-- Formalization of "a precedes b" in a trace: every occurrence of `b` has an
earlier occurrence of `a`. -/
def precededBy (t : List EventType) (b a : EventType) : Prop :=
  ∀ j : Fin t.length, t.get j = b → ∃ i : Fin t.length, i.val < j.val ∧ t.get i = a

instance (t : List EventType) (b a : EventType) : Decidable (precededBy t b a) := by
  unfold precededBy; infer_instance

/-! ### Media control queue (nabu_media_player.cpp lines 161-184 and 630-663) -/

/-- MediaPlayerCommand values of the external control surface. -/
inductive MediaPlayerCommand
  | play
  | pause
  | stop
  | toggle
  | mute
  | unmute
  | volume_up
  | volume_down
  deriving DecidableEq

/-- External `media_player::MediaPlayerCall` as consumed by `NabuMediaPlayer::control`. -/
structure MediaPlayerCall where
  media_url : Option String
  announcement : Option Bool
  volume : Option ℚ
  command : Option MediaPlayerCommand
  deriving DecidableEq

/-- `MediaCallCommand` message sent over media_control_command_queue_. -/
structure MediaCallCommand where
  new_url : Option Bool
  announce : Option Bool
  volume : Option ℚ
  command : Option MediaPlayerCommand
  deriving DecidableEq

/-- Queue depth used for every queue in `NabuMediaPlayer::setup` (line 38). -/
def QUEUE_COUNT : ℕ := 20

/-- Result of a FreeRTOS xQueueSend from the sending task's point of view, in the
scenario where no receiver frees a slot during the wait: an item is enqueued when
a slot is free; on a full queue a finite tick timeout elapses and the item is
dropped, while portMAX_DELAY (modelled as `none`) blocks the caller forever. -/
inductive QueueSendResult (α : Type)
  | enqueued (q : List α)
  | droppedAfterTimeout
  | blockedForever
  deriving DecidableEq

def xQueueSendModel {α : Type} (q : List α) (capacity : ℕ) (x : α)
    (ticksToWait : Option ℕ) : QueueSendResult α :=
  if q.length < capacity then .enqueued (q ++ [x])
  else
    match ticksToWait with
    | some _ => .droppedAfterTimeout
    | none => .blockedForever

/-- portMAX_DELAY: wait with no timeout. -/
def portMAX_DELAY : Option ℕ := none

/-- A MediaCallCommand freshly declared in `control` (all optionals unset). -/
def emptyMediaCommand : MediaCallCommand := ⟨none, none, none, none⟩

/-- Outcome of one `NabuMediaPlayer::control` invocation against the current
contents of media_control_command_queue_. -/
inductive ControlResult
  | enqueued (q : List MediaCallCommand)
  | droppedAfterTimeout
  | blockedForever
  | noCommand
  deriving DecidableEq

def liftSend : QueueSendResult MediaCallCommand → ControlResult
  | .enqueued q => .enqueued q
  | .droppedAfterTimeout => .droppedAfterTimeout
  | .blockedForever => .blockedForever

/-- `NabuMediaPlayer::control` (lines 630-663): builds a MediaCallCommand from the
call (new source, else volume, else transport command) and sends it to the bounded
command queue with `xQueueSend(..., portMAX_DELAY)`. -/
def control (call : MediaPlayerCall) (q : List MediaCallCommand) : ControlResult :=
  match call.media_url with
  | some _ =>
    let cmd :=
      if call.announcement.getD false then
        { emptyMediaCommand with new_url := some true, announce := some true }
      else
        { emptyMediaCommand with new_url := some true, announce := some false }
    liftSend (xQueueSendModel q QUEUE_COUNT cmd portMAX_DELAY)
  | none =>
    match call.volume with
    | some v =>
      liftSend (xQueueSendModel q QUEUE_COUNT { emptyMediaCommand with volume := some v }
        portMAX_DELAY)
    | none =>
      match call.command with
      | some c =>
        let cmd0 :=
          if call.announcement.getD false then { emptyMediaCommand with announce := some true }
          else emptyMediaCommand
        liftSend (xQueueSendModel q QUEUE_COUNT { cmd0 with command := some c } portMAX_DELAY)
      | none => .noCommand

/-- Command actually enqueued by `control` for a given call (summarizes the three
construction sites). -/
def controlBuiltCommand (call : MediaPlayerCall) : MediaCallCommand :=
  match call.media_url with
  | some _ =>
    { emptyMediaCommand with new_url := some true, announce := some (call.announcement.getD false) }
  | none =>
    match call.volume with
    | some v => { emptyMediaCommand with volume := some v }
    | none =>
      match call.command with
      | some c =>
        { emptyMediaCommand with
            announce := if call.announcement.getD false then some true else none,
            command := some c }
      | none => emptyMediaCommand

/-! ### Published player state (nabu_media_player.cpp lines 578-619) -/

/-- PipelineState values assigned by `NabuMediaPlayer::watch_`. -/
inductive PipelineState
  | STARTING
  | STARTED
  | PLAYING
  | STOPPING
  | STOPPED
  deriving DecidableEq, Fintype

/-- Externally published media player states derived by `NabuMediaPlayer::loop`. -/
inductive MediaPlayerState
  | IDLE
  | PLAYING
  | PAUSED
  | ANNOUNCING
  deriving DecidableEq, Fintype

/-- State derivation of `NabuMediaPlayer::loop` (lines 586-614), translated from
the nested conditionals of the source. -/
def loop_derived_state (ann : PipelineState) (isPaused : Bool) (media : PipelineState) :
    MediaPlayerState :=
  if ann ≠ PipelineState.STOPPING ∧ ann ≠ PipelineState.STOPPED then
    MediaPlayerState.ANNOUNCING
  else if isPaused then
    MediaPlayerState.PAUSED
  else if media = PipelineState.STOPPING ∨ media = PipelineState.STOPPED then
    MediaPlayerState.IDLE
  else
    MediaPlayerState.PLAYING

/-- A pipeline is active when it is neither STOPPING nor STOPPED (the spec's
wording). -/
def pipelineActive (s : PipelineState) : Bool :=
  decide (s ≠ PipelineState.STOPPING) && decide (s ≠ PipelineState.STOPPED)

/-- State derivation as worded by the spec: precedence announcement active >
paused > media active > idle. -/
def spec_derived_state (ann : PipelineState) (isPaused : Bool) (media : PipelineState) :
    MediaPlayerState :=
  if pipelineActive ann then MediaPlayerState.ANNOUNCING
  else if isPaused then MediaPlayerState.PAUSED
  else if pipelineActive media then MediaPlayerState.PLAYING
  else MediaPlayerState.IDLE

/-- Concrete lifecycle environment exhibiting the delete_task_ hang: allocations
succeed but `start_i2s_driver_` fails (for example the I2S port try_lock fails,
returning ESP_ERR_INVALID_STATE at line 150). -/
def envDriverFail : TaskEnv :=
  ⟨COMMAND_START, 0, true, true, some EspErr.invalid_state, none, ⟨32000, 16, 16, 32767⟩, 0, []⟩

/-! ### Helper lemmas -/

/-- Boolean check that a list of integers is nondecreasing. -/
def nondecrB : List ℤ → Bool
  | [] => true
  | [_] => true
  | a :: b :: t => decide (a ≤ b) && nondecrB (b :: t)

theorem nondecrB_chain : ∀ l : List ℤ, nondecrB l = true → List.Chain' (· ≤ ·) l
  | [], _ => List.chain'_nil
  | [_], _ => List.chain'_singleton _
  | a :: b :: t, h => by
    simp only [nondecrB, Bool.and_eq_true, decide_eq_true_eq] at h
    exact List.Chain'.cons h.1 (nondecrB_chain (b :: t) h.2)

theorem table_chain : List.Chain' (· ≤ ·) q15_volume_scaling_factors :=
  nondecrB_chain _ (by decide)

theorem chain_le_getD (l : List ℤ) (hl : List.Chain' (· ≤ ·) l) {i j : ℕ}
    (hij : i ≤ j) (hj : j < l.length) : l.getD i 0 ≤ l.getD j 0 := by
  rcases eq_or_lt_of_le hij with rfl | hlt
  · exact le_refl _
  · have hp : List.Pairwise (· ≤ ·) l := List.chain'_iff_pairwise.mp hl
    have hi : i < l.length := lt_trans hlt hj
    have := List.pairwise_iff_get.mp hp ⟨i, hi⟩ ⟨j, hj⟩ hlt
    rw [List.getD_eq_getElem l 0 hi, List.getD_eq_getElem l 0 hj]
    simpa using this

theorem round_mono_rat (a b : ℚ) (h : a ≤ b) : round a ≤ round b := by
  rw [round_eq, round_eq]
  exact Int.floor_mono (by linarith)

theorem round_99 : round ((99 : ℚ)) = 99 := by norm_num [round_eq]

/-! ### Claim theorems -/

/-- C1: for volume in [0,1] the gain-table index is round(volume * 99) (the clamp
is the identity there), volume 0 yields gain 0, volume 1 yields gain 32767 (the
table's maximum entry), and the gain is monotone nondecreasing in the volume. -/
theorem C1_volume_to_gain (v w : ℚ) (h0 : 0 ≤ v) (hvw : v ≤ w) (h1 : w ≤ 1) :
    volumeToGainIndex v = round (v * 99) ∧
    set_volume_gain 0 = 0 ∧
    set_volume_gain 1 = 32767 ∧
    set_volume_gain v ≤ set_volume_gain w := by
  have hv99 : v * 99 ≤ w * 99 := by nlinarith
  have hw99 : w * 99 ≤ 99 := by nlinarith
  have hv0 : (0 : ℤ) ≤ round (v * 99) := by
    have := round_mono_rat 0 (v * 99) (by nlinarith)
    simpa using this
  have hround_vw : round (v * 99) ≤ round (w * 99) := round_mono_rat _ _ hv99
  have hw_hi : round (w * 99) ≤ 99 := by
    have := round_mono_rat (w * 99) 99 hw99
    rwa [round_99] at this
  have hv_hi : round (v * 99) ≤ 99 := le_trans hround_vw hw_hi
  have hw0 : (0 : ℤ) ≤ round (w * 99) := le_trans hv0 hround_vw
  have hidx_v : volumeToGainIndex v = round (v * 99) := by
    rw [volumeToGainIndex]; omega
  have hidx_w : volumeToGainIndex w = round (w * 99) := by
    rw [volumeToGainIndex]; omega
  refine ⟨hidx_v, ?_, ?_, ?_⟩
  · have hz : volumeToGainIndex 0 = 0 := by norm_num [volumeToGainIndex]
    rw [set_volume_gain, hz]; rfl
  · have ho : volumeToGainIndex 1 = 99 := by norm_num [volumeToGainIndex, round_eq]
    rw [set_volume_gain, ho]; rfl
  · rw [set_volume_gain, set_volume_gain, hidx_v, hidx_w]
    refine chain_le_getD _ table_chain ?_ ?_
    · exact Int.toNat_le_toNat hround_vw
    · have : (round (w * 99)).toNat ≤ 99 := by omega
      have hlen : q15_volume_scaling_factors.length = 100 := by rfl
      omega

/-- C1 witness at the endpoints. -/
theorem C1_volume_to_gain_witness :
    volumeToGainIndex 0 = round ((0 : ℚ) * 99) ∧
    set_volume_gain 0 = 0 ∧
    set_volume_gain 1 = 32767 ∧
    set_volume_gain 0 ≤ set_volume_gain 1 :=
  C1_volume_to_gain 0 1 (by norm_num) (by norm_num) (by norm_num)

/-- C9 fails on the table: volume 0.5 does select index round(0.5*99) = 50, but the
table entry there is 1946, not 590 (580 and 615 sit at indices 29 and 30). -/
theorem C9_volume_half_counterexample :
    volumeToGainIndex (1 / 2) = 50 ∧ set_volume_gain (1 / 2) ≠ 590 := by
  have hidx : volumeToGainIndex (1 / 2) = 50 := by norm_num [volumeToGainIndex, round_eq]
  refine ⟨hidx, ?_⟩
  rw [set_volume_gain, hidx]
  decide

/-- C9 amended: volume 0.5 selects gain table index round(0.5*99) = 50, and the
table value at that index is 1946. -/
theorem C9_volume_half_amended :
    volumeToGainIndex (1 / 2) = 50 ∧ set_volume_gain (1 / 2) = 1946 := by
  have hidx : volumeToGainIndex (1 / 2) = 50 := by norm_num [volumeToGainIndex, round_eq]
  refine ⟨hidx, ?_⟩
  rw [set_volume_gain, hidx]
  decide

/-- C4: the state published by NabuMediaPlayer::loop equals the spec's precedence
rule announcement-active > paused > media-active > idle, for every combination of
sub-states. -/
theorem C4_player_state_precedence :
    ∀ (ann : PipelineState) (isPaused : Bool) (media : PipelineState),
      loop_derived_state ann isPaused media = spec_derived_state ann isPaused media := by
  decide

theorem toInt16_eq_self {x : ℤ} (h1 : -32768 ≤ x) (h2 : x ≤ 32767) : toInt16 x = x := by
  rw [toInt16]; omega

theorem mul_bounds_int16 {s c : ℤ} (hs1 : -32768 ≤ s) (hs2 : s ≤ 32767)
    (hc1 : -32768 ≤ c) (hc2 : c ≤ 32767) (hne : s ≠ -32768 ∨ c ≠ -32768) :
    -1073709056 ≤ s * c ∧ s * c < 1073741824 := by
  constructor
  · rcases le_or_lt s 0 with hs | hs
    · nlinarith [mul_nonneg (by omega : (0:ℤ) ≤ -s) (by omega : (0:ℤ) ≤ c + 32768)]
    · nlinarith [mul_nonneg (by omega : (0:ℤ) ≤ s) (by omega : (0:ℤ) ≤ 32768 + c)]
  · rcases hne with h | h
    · rcases le_or_lt c 0 with hc | hc
      · nlinarith [mul_nonneg (by omega : (0:ℤ) ≤ s + 32767) (by omega : (0:ℤ) ≤ -c)]
      · nlinarith [mul_nonneg (by omega : (0:ℤ) ≤ 32767 - s) (by omega : (0:ℤ) ≤ c)]
    · rcases le_or_lt s 0 with hs | hs
      · nlinarith [mul_nonneg (by omega : (0:ℤ) ≤ -s) (by omega : (0:ℤ) ≤ c + 32767)]
      · nlinarith [mul_nonneg (by omega : (0:ℤ) ≤ s) (by omega : (0:ℤ) ≤ 32767 - c)]

/-- C2 fails at one corner: at sample -32768 with gain -32768 the shifted product
is 32768, which does not fit int16, so the stored sample is its wrapped value
-32768 rather than (int32(sample) * int32(gain)) >> 15. -/
theorem C2_apply_gain_counterexample :
    q15_multiplication [-32768] (-32768) = [-32768] ∧
    ((-32768 : ℤ) * (-32768)) / 32768 = 32768 ∧
    q15_multiplication [-32768] (-32768) ≠ [((-32768 : ℤ) * (-32768)) / 32768] := by
  refine ⟨by decide, by decide, by decide⟩

/-- C2 amended: the gain stage stores the int16 truncation of
(int32(sample) * int32(gain)) >> 15, which equals the untruncated shifted product
for every int16 sample/gain pair except sample = gain = -32768; at gain 0 every
output sample is 0, and at gain 32767 every output sample is within 1 LSB of its
input. -/
theorem C2_apply_gain_amended (samples : List ℤ) (c : ℤ)
    (hs : ∀ s ∈ samples, -32768 ≤ s ∧ s ≤ 32767) (hc : -32768 ≤ c ∧ c ≤ 32767) :
    q15_multiplication samples c = samples.map (fun s => toInt16 (s * c / 32768)) ∧
    (∀ s ∈ samples, (s ≠ -32768 ∨ c ≠ -32768) → q15_mul_sample s c = s * c / 32768) ∧
    (c = 0 → q15_multiplication samples c = samples.map fun _ => 0) ∧
    (c = 32767 → ∀ s ∈ samples,
      q15_mul_sample s c - s ≤ 1 ∧ s - q15_mul_sample s c ≤ 1) := by
  refine ⟨rfl, ?_, ?_, ?_⟩
  · intro s hmem hne
    obtain ⟨hs1, hs2⟩ := hs s hmem
    obtain ⟨hb1, hb2⟩ := mul_bounds_int16 hs1 hs2 hc.1 hc.2 hne
    rw [q15_mul_sample]
    exact toInt16_eq_self (by omega) (by omega)
  · rintro rfl
    rw [q15_multiplication]
    refine List.map_congr_left fun s _ => ?_
    rw [q15_mul_sample]
    norm_num [toInt16]
  · rintro rfl s hmem
    obtain ⟨hs1, hs2⟩ := hs s hmem
    have hsplit : s * 32767 = -s + s * 32768 := by ring
    rw [q15_mul_sample, hsplit, Int.add_mul_ediv_right _ _ (by norm_num),
      toInt16_eq_self (by omega) (by omega)]
    omega

/-- C2 witness: amended statement evaluated at the sample list [30000, -1] with
gain 32767. -/
theorem C2_apply_gain_witness :
    q15_multiplication [30000, -1] 32767 =
      [30000, -1].map (fun s => toInt16 (s * 32767 / 32768)) ∧
    (∀ s ∈ [(30000 : ℤ), -1], (s ≠ -32768 ∨ (32767 : ℤ) ≠ -32768) →
      q15_mul_sample s 32767 = s * 32767 / 32768) ∧
    ((32767 : ℤ) = 0 → q15_multiplication [30000, -1] 32767 = [30000, -1].map fun _ => 0) ∧
    ((32767 : ℤ) = 32767 → ∀ s ∈ [(30000 : ℤ), -1],
      q15_mul_sample s 32767 - s ≤ 1 ∧ s - q15_mul_sample s 32767 ≤ 1) :=
  C2_apply_gain_amended [30000, -1] 32767 (by decide) (by decide)

/-- C3 fails on the code: with the command queue full (20 pending commands),
control's xQueueSend uses portMAX_DELAY, so the caller blocks forever; the new
command is not dropped after a timeout. -/
theorem C3_control_counterexample :
    control ⟨some ("u"), none, none, none⟩ (List.replicate 20 emptyMediaCommand) =
      ControlResult.blockedForever ∧
    ControlResult.blockedForever ≠ ControlResult.droppedAfterTimeout := by
  refine ⟨by decide, by decide⟩

/-- C3 amended: every external media-player call carrying a new source, a volume,
or a transport command is enqueued onto the bounded (capacity 20) command queue
with an infinite-timeout blocking send (portMAX_DELAY): when the queue has a free
slot the command is enqueued, and when the queue is full (and no receiver frees a
slot) the caller blocks indefinitely; the command is never dropped. -/
theorem C3_control_amended (call : MediaPlayerCall) (q : List MediaCallCommand)
    (hcall : call.media_url.isSome ∨ call.volume.isSome ∨ call.command.isSome) :
    (q.length < QUEUE_COUNT →
      control call q = ControlResult.enqueued (q ++ [controlBuiltCommand call])) ∧
    (QUEUE_COUNT ≤ q.length → control call q = ControlResult.blockedForever) := by
  constructor
  · intro hlen
    rcases hu : call.media_url with _ | u
    · rcases hv : call.volume with _ | v
      · rcases hc : call.command with _ | c
        · rw [hu, hv, hc] at hcall; simp at hcall
        · rcases ha : call.announcement.getD false with _ | _ <;>
            simp [control, controlBuiltCommand, emptyMediaCommand, hu, hv, hc, ha,
              xQueueSendModel, portMAX_DELAY, liftSend, hlen]
      · simp [control, controlBuiltCommand, hu, hv, xQueueSendModel, portMAX_DELAY,
          liftSend, hlen]
    · rcases ha : call.announcement.getD false with _ | _ <;>
        simp [control, controlBuiltCommand, hu, ha, xQueueSendModel, portMAX_DELAY,
          liftSend, hlen]
  · intro hlen
    have hlen2 : ¬ q.length < QUEUE_COUNT := by omega
    rcases hu : call.media_url with _ | u
    · rcases hv : call.volume with _ | v
      · rcases hc : call.command with _ | c
        · rw [hu, hv, hc] at hcall; simp at hcall
        · simp [control, hu, hv, hc, xQueueSendModel, portMAX_DELAY, liftSend, hlen2]
      · simp [control, hu, hv, xQueueSendModel, portMAX_DELAY, liftSend, hlen2]
    · simp [control, hu, xQueueSendModel, portMAX_DELAY, liftSend, hlen2]

/-- C3 witness: a volume call against an empty queue is enqueued. -/
theorem C3_control_witness :
    control ⟨none, none, some 1, none⟩ [] =
      ControlResult.enqueued [controlBuiltCommand ⟨none, none, some 1, none⟩] :=
  (C3_control_amended ⟨none, none, some 1, none⟩ [] (by simp)).1 (by norm_num [QUEUE_COUNT])

theorem speakerLoop_timeout (cfg : LoopCfg) (last avail : ℕ) (iters : List IterIn)
    (hall : ∀ it ∈ iters, it.cmdStop = false ∧ it.cmdStopGracefully = false ∧ it.bytesRead = 0)
    (hex : ∃ it ∈ iters, cfg.timeout < elapsed32 it.tGuard last) :
    (speakerLoop cfg last false avail iters).exit = LoopExit.timedOut ∧
    (speakerLoop cfg last false avail iters).avail = avail := by
  induction iters with
  | nil => obtain ⟨it, hmem, _⟩ := hex; cases hmem
  | cons it rest ih =>
    obtain ⟨h1, h2, h3⟩ := hall it (List.mem_cons_self it rest)
    by_cases hg : elapsed32 it.tGuard last ≤ cfg.timeout
    · have hex2 : ∃ x ∈ rest, cfg.timeout < elapsed32 x.tGuard last := by
        obtain ⟨x, hmem, hx⟩ := hex
        rcases List.mem_cons.mp hmem with rfl | hmem2
        · omega
        · exact ⟨x, hmem2, hx⟩
      have ih2 := ih (fun x hx => hall x (List.mem_cons_of_mem _ hx)) hex2
      simpa [speakerLoop, hg, h1, h2, h3] using ih2
    · constructor <;> simp [speakerLoop, hg]

/-- C5: when the steady-state loop observes COMMAND_STOP it zeroes the DMA buffer
(emits silence) and breaks immediately - no further ring-buffer read, the buffered
byte count is untouched - and the subsequent teardown performs no ring-buffer read
either, ending in task deletion. -/
theorem C5_hard_stop_silence (cfg : LoopCfg) (last : ℕ) (stopG : Bool) (avail : ℕ)
    (it : IterIn) (rest : List IterIn)
    (hguard : elapsed32 it.tGuard last ≤ cfg.timeout)
    (hstop : it.cmdStop = true) (_hbuf : 0 < avail) :
    speakerLoop cfg last stopG avail (it :: rest) =
      ⟨[SpeakerAct.zeroDmaBuffer], LoopExit.stoppedByCmd, avail⟩ ∧
    SpeakerAct.readRing ∉ (teardown_acts true).1 ∧
    (∀ env : TaskEnv, stop_requested env.startBits = false →
      env.dataAllocOk = true → env.ringAllocOk = true →
      env.driverErr = none → env.streamInfoErr = none →
      (speakerLoop env.cfg env.t0 false env.availAtRun env.iters).exit = LoopExit.stoppedByCmd →
      speakerTask env =
        ([SpeakerAct.setBits STATE_STARTING,
          SpeakerAct.setBits (STATE_RUNNING ||| MESSAGE_RING_BUFFER_AVAILABLE_TO_WRITE)] ++
          (speakerLoop env.cfg env.t0 false env.availAtRun env.iters).acts ++
          [SpeakerAct.setBits STATE_STOPPING, SpeakerAct.i2sStopDriver,
           SpeakerAct.uninstallDriver, SpeakerAct.unlockParent,
           SpeakerAct.setBits STATE_STOPPED, SpeakerAct.deleteTask], TaskOutcome.deleted)) := by
  refine ⟨by simp [speakerLoop, hguard, hstop], by decide, ?_⟩
  intro env e1 e2 e3 e4 e5 e6
  simp [speakerTask, e1, e2, e3, e4, e5, e6, teardown_acts, delete_task_acts]

/-- C5 witness: a concrete stop iteration with 4 bytes still buffered. -/
theorem C5_hard_stop_silence_witness :
    speakerLoop ⟨32000, 16, 16, 32767⟩ 0 false 4 [⟨0, true, false, 0, 0, 0⟩] =
      ⟨[SpeakerAct.zeroDmaBuffer], LoopExit.stoppedByCmd, 4⟩ ∧
    SpeakerAct.readRing ∉ (teardown_acts true).1 := by
  have h := C5_hard_stop_silence ⟨32000, 16, 16, 32767⟩ 0 false 4 ⟨0, true, false, 0, 0, 0⟩ []
    (by decide) rfl (by norm_num)
  exact ⟨h.1, h.2.1⟩

/-- C6: when no data arrives within the idle timeout (and no stop command is
seen), the steady-state loop exits via its while condition, and the task tears
down: the trace ends with STATE_STOPPING, driver stop and uninstall, port unlock,
STATE_STOPPED and task deletion. -/
theorem C6_idle_timeout_teardown (env : TaskEnv)
    (hstart : stop_requested env.startBits = false)
    (halloc : env.dataAllocOk = true) (hring : env.ringAllocOk = true)
    (hdrv : env.driverErr = none) (hstream : env.streamInfoErr = none)
    (hall : ∀ it ∈ env.iters,
      it.cmdStop = false ∧ it.cmdStopGracefully = false ∧ it.bytesRead = 0)
    (hex : ∃ it ∈ env.iters, env.cfg.timeout < elapsed32 it.tGuard env.t0) :
    (speakerLoop env.cfg env.t0 false env.availAtRun env.iters).exit = LoopExit.timedOut ∧
    (speakerTask env).2 = TaskOutcome.deleted ∧
    [SpeakerAct.setBits STATE_STOPPING, SpeakerAct.i2sStopDriver, SpeakerAct.uninstallDriver,
      SpeakerAct.unlockParent, SpeakerAct.setBits STATE_STOPPED, SpeakerAct.deleteTask]
      <:+ (speakerTask env).1 := by
  have hto := speakerLoop_timeout env.cfg env.t0 env.availAtRun env.iters hall hex
  have htask : speakerTask env =
      ([SpeakerAct.setBits STATE_STARTING,
        SpeakerAct.setBits (STATE_RUNNING ||| MESSAGE_RING_BUFFER_AVAILABLE_TO_WRITE)] ++
        (speakerLoop env.cfg env.t0 false env.availAtRun env.iters).acts ++
        [SpeakerAct.setBits STATE_STOPPING, SpeakerAct.i2sStopDriver,
         SpeakerAct.uninstallDriver, SpeakerAct.unlockParent,
         SpeakerAct.setBits STATE_STOPPED, SpeakerAct.deleteTask], TaskOutcome.deleted) := by
    simp [speakerTask, hstart, halloc, hring, hdrv, hstream, hto.1, teardown_acts,
      delete_task_acts]
  refine ⟨hto.1, by rw [htask], ?_⟩
  rw [htask]
  exact ⟨[SpeakerAct.setBits STATE_STARTING,
    SpeakerAct.setBits (STATE_RUNNING ||| MESSAGE_RING_BUFFER_AVAILABLE_TO_WRITE)] ++
    (speakerLoop env.cfg env.t0 false env.availAtRun env.iters).acts, by simp⟩

/-- C6 witness: one idle iteration past the timeout causes teardown. -/
theorem C6_idle_timeout_teardown_witness :
    (speakerLoop ⟨1000, 16, 16, 32767⟩ 0 false 0 [⟨5000, false, false, 0, 0, 0⟩]).exit =
      LoopExit.timedOut ∧
    (speakerTask ⟨1, 0, true, true, none, none, ⟨1000, 16, 16, 32767⟩, 0,
      [⟨5000, false, false, 0, 0, 0⟩]⟩).2 = TaskOutcome.deleted ∧
    [SpeakerAct.setBits STATE_STOPPING, SpeakerAct.i2sStopDriver, SpeakerAct.uninstallDriver,
      SpeakerAct.unlockParent, SpeakerAct.setBits STATE_STOPPED, SpeakerAct.deleteTask]
      <:+ (speakerTask ⟨1, 0, true, true, none, none, ⟨1000, 16, 16, 32767⟩, 0,
        [⟨5000, false, false, 0, 0, 0⟩]⟩).1 :=
  C6_idle_timeout_teardown
    ⟨1, 0, true, true, none, none, ⟨1000, 16, 16, 32767⟩, 0, [⟨5000, false, false, 0, 0, 0⟩]⟩
    (by decide) rfl rfl rfl rfl (by decide)
    ⟨⟨5000, false, false, 0, 0, 0⟩, by decide, by decide⟩

/-- C7: a steady-state write that accepts fewer bytes than requested raises the
ERR_INVALID_SIZE report (surfaced as a warning by the owner's loop) and the loop
continues with the next iteration; likewise the nabu speaker task emits a WARNING
event on a short write and keeps looping. -/
theorem C7_short_write_warning (cfg : LoopCfg) (last : ℕ) (stopG : Bool) (avail : ℕ)
    (it : IterIn) (rest : List IterIn)
    (hguard : elapsed32 it.tGuard last ≤ cfg.timeout)
    (hnostop : it.cmdStop = false)
    (hread : 0 < it.bytesRead)
    (hbits : cfg.stream_bits = cfg.out_bits)
    (hshort : it.bytesWritten ≠ it.bytesRead) :
    SpeakerAct.setBits ERR_INVALID_SIZE ∈ (speakerLoop cfg last stopG avail (it :: rest)).acts ∧
    (speakerLoop cfg it.tData (stopG || it.cmdStopGracefully) (avail - it.bytesRead) rest).acts
      <:+ (speakerLoop cfg last stopG avail (it :: rest)).acts ∧
    (speakerLoop cfg last stopG avail (it :: rest)).exit =
      (speakerLoop cfg it.tData (stopG || it.cmdStopGracefully) (avail - it.bytesRead) rest).exit ∧
    (∀ rest2 : List NabuIter,
      nabu_loop_events (NabuIter.data false :: rest2) =
        EventType.WARNING :: nabu_loop_events rest2) := by
  have hle : cfg.stream_bits ≤ cfg.out_bits := le_of_eq hbits
  refine ⟨?_, ?_, ?_, fun rest2 => rfl⟩
  · simp [speakerLoop, hguard, hnostop, hread, hbits, hle, hshort]
  · refine ⟨SpeakerAct.readRing ::
      ((if cfg.stream_bits ≤ 16 ∧ cfg.q15_volume_factor < 32767 then [SpeakerAct.applyGain]
        else []) ++ [SpeakerAct.i2sWrite it.bytesWritten, SpeakerAct.setBits ERR_INVALID_SIZE]),
      ?_⟩
    simp [speakerLoop, hguard, hnostop, hread, hbits, hle, hshort]
  · simp [speakerLoop, hguard, hnostop, hread, hbits, hle, hshort]

/-- C7 witness: a 512-byte read of which only 100 bytes are written. -/
theorem C7_short_write_warning_witness :
    SpeakerAct.setBits ERR_INVALID_SIZE ∈
      (speakerLoop ⟨32000, 16, 16, 100⟩ 0 false 1024 [⟨0, false, false, 512, 0, 100⟩]).acts ∧
    (speakerLoop ⟨32000, 16, 16, 100⟩ 0 false 512 []).acts
      <:+ (speakerLoop ⟨32000, 16, 16, 100⟩ 0 false 1024 [⟨0, false, false, 512, 0, 100⟩]).acts ∧
    (speakerLoop ⟨32000, 16, 16, 100⟩ 0 false 1024 [⟨0, false, false, 512, 0, 100⟩]).exit =
      (speakerLoop ⟨32000, 16, 16, 100⟩ 0 false 512 []).exit ∧
    (∀ rest2 : List NabuIter,
      nabu_loop_events (NabuIter.data false :: rest2) =
        EventType.WARNING :: nabu_loop_events rest2) :=
  C7_short_write_warning ⟨32000, 16, 16, 100⟩ 0 false 1024 ⟨0, false, false, 512, 0, 100⟩ []
    (by decide) rfl (by norm_num) rfl (by norm_num)

/-- C10 is the intent but the code has a slip: when both allocations succeed and
start_i2s_driver_ fails (for example the port try_lock returns
ESP_ERR_INVALID_STATE), delete_task_ blocks forever waiting for
MESSAGE_RING_BUFFER_AVAILABLE_TO_WRITE - a bit only ever set after a successful
driver start - so STATE_STOPPED is never set and the owner's polling loop never
observes the stop. -/
theorem C10_stopped_bit_code_bug :
    (speakerTask envDriverFail).2 = TaskOutcome.hungForever ∧
    SpeakerAct.setBits STATE_STOPPED ∉ (speakerTask envDriverFail).1 ∧
    (speakerTask envDriverFail).1 =
      [SpeakerAct.setBits STATE_STARTING, SpeakerAct.setBits ERR_INVALID_STATE,
       SpeakerAct.waitRingMsgForever] := by
  refine ⟨by decide, by decide, by decide⟩

theorem nabu_loop_events_mem : ∀ (iters : List NabuIter) (e : EventType),
    e ∈ nabu_loop_events iters →
    e = EventType.RUNNING ∨ e = EventType.IDLE ∨ e = EventType.WARNING
  | [], e, h => by cases h
  | .stopCmd :: _, e, h => by cases h
  | .data ok :: rest, e, h => by
    simp only [nabu_loop_events] at h
    rcases List.mem_cons.mp h with rfl | h2
    · cases ok <;> simp
    · exact nabu_loop_events_mem rest e h2
  | .noData :: rest, e, h => by
    simp only [nabu_loop_events] at h
    rcases List.mem_cons.mp h with rfl | h2
    · simp
    · exact nabu_loop_events_mem rest e h2

theorem rank_chain_twos (l : List ℕ) (hl : ∀ x ∈ l, x = 2) (t : List ℕ)
    (ht : List.Chain' (· ≤ ·) t) (hhead : ∀ x ∈ t.head?, 2 ≤ x) :
    List.Chain' (· ≤ ·) (l ++ t) := by
  induction l with
  | nil => simpa using ht
  | cons a l2 ih =>
    have ha : a = 2 := hl a (List.mem_cons_self a l2)
    have ih2 := ih fun x hx => hl x (List.mem_cons_of_mem _ hx)
    rw [List.cons_append, List.chain'_cons']
    refine ⟨?_, ih2⟩
    intro y hy
    subst ha
    cases l2 with
    | nil => exact hhead y (by simpa using hy)
    | cons b l3 =>
      have hb : b = 2 := hl b (List.mem_cons_of_mem _ (List.mem_cons_self b l3))
      simp only [List.cons_append, List.head?_cons, Option.mem_def, Option.some.injEq] at hy
      omega

/-- C8 fails on the code: a setup failure (here: the buffer allocation) produces
the lifecycle trace STARTING, WARNING, STOPPED, in which STOPPED is not preceded
by any STOPPING event. -/
theorem C8_status_counterexample :
    nabu_speaker_trace false true true [] =
      [EventType.STARTING, EventType.WARNING, EventType.STOPPED] ∧
    ¬ precededBy (nabu_speaker_trace false true true []) EventType.STOPPED
      EventType.STOPPING := by
  refine ⟨by decide, by decide⟩

/-- C8 amended: the non-WARNING status events of one lifecycle always occur in
non-decreasing stage order (STARTING, STARTED, the RUNNING/IDLE phase, STOPPING,
STOPPED); a lifecycle whose setup succeeds emits STARTING, STARTED, a body of only
RUNNING/IDLE/WARNING events and - when stopped - STOPPING then STOPPED, while a
setup-failure lifecycle emits exactly STARTING, WARNING, STOPPED, skipping STARTED
and STOPPING. -/
theorem C8_status_amended (allocOk installOk setPinOk : Bool) (iters : List NabuIter) :
    List.Chain' (· ≤ ·)
      ((nabu_speaker_trace allocOk installOk setPinOk iters).filterMap stageRank) ∧
    (allocOk = true → installOk = true → setPinOk = true →
      nabu_speaker_trace allocOk installOk setPinOk iters =
        EventType.STARTING :: EventType.STARTED ::
          (nabu_loop_events iters ++
            (if nabu_loop_breaks iters then [EventType.STOPPING, EventType.STOPPED]
             else [])) ∧
      ∀ e ∈ nabu_loop_events iters,
        e = EventType.RUNNING ∨ e = EventType.IDLE ∨ e = EventType.WARNING) ∧
    ((allocOk = false ∨ installOk = false ∨ setPinOk = false) →
      nabu_speaker_trace allocOk installOk setPinOk iters =
        [EventType.STARTING, EventType.WARNING, EventType.STOPPED]) := by
  by_cases hok : allocOk = true ∧ installOk = true ∧ setPinOk = true
  · obtain ⟨rfl, rfl, rfl⟩ := hok
    have htr : nabu_speaker_trace true true true iters =
        EventType.STARTING :: EventType.STARTED ::
          (nabu_loop_events iters ++
            (if nabu_loop_breaks iters then [EventType.STOPPING, EventType.STOPPED]
             else [])) := by
      simp [nabu_speaker_trace]
    have hM2 : ∀ x ∈ (nabu_loop_events iters).filterMap stageRank, x = 2 := by
      intro x hx
      obtain ⟨e, he, hfe⟩ := List.mem_filterMap.mp hx
      rcases nabu_loop_events_mem iters e he with rfl | rfl | rfl
      · simpa [stageRank] using hfe.symm
      · simpa [stageRank] using hfe.symm
      · simp [stageRank] at hfe
    refine ⟨?_, fun _ _ _ => ⟨htr, nabu_loop_events_mem iters⟩, by simp⟩
    rw [htr]
    simp only [List.filterMap_cons, stageRank, List.filterMap_append]
    refine List.chain'_cons'.mpr ⟨by intro y hy; simp at hy; omega,
      List.chain'_cons'.mpr ⟨?_, ?_⟩⟩
    · intro y hy
      have hmem := List.mem_of_mem_head? hy
      rcases List.mem_append.mp hmem with h | h
      · have := hM2 y h; omega
      · rcases hb : nabu_loop_breaks iters <;> rw [hb] at h <;> simp [stageRank] at h
        omega
    · refine rank_chain_twos _ hM2 _ ?_ ?_
      · rcases hb : nabu_loop_breaks iters <;> simp [hb, stageRank]
      · rcases hb : nabu_loop_breaks iters <;> simp [hb, stageRank]
  · have hfail : (!allocOk || !installOk || !setPinOk) = true := by
      cases allocOk <;> cases installOk <;> cases setPinOk <;> simp_all
    have htr : nabu_speaker_trace allocOk installOk setPinOk iters =
        [EventType.STARTING, EventType.WARNING, EventType.STOPPED] := by
      simp only [nabu_speaker_trace, hfail, if_true]
    refine ⟨?_, fun h1 h2 h3 => absurd ⟨h1, h2, h3⟩ hok, fun _ => htr⟩
    rw [htr]
    simp only [List.filterMap_cons, stageRank, List.filterMap_nil]
    exact List.Chain'.cons (by norm_num) (List.chain'_singleton _)

/-- C8 witness: a successful lifecycle with one full write then a stop command. -/
theorem C8_status_amended_witness :
    List.Chain' (· ≤ ·) ((nabu_speaker_trace true true true
      [NabuIter.data true, NabuIter.stopCmd]).filterMap stageRank) ∧
    nabu_speaker_trace true true true [NabuIter.data true, NabuIter.stopCmd] =
      EventType.STARTING :: EventType.STARTED ::
        (nabu_loop_events [NabuIter.data true, NabuIter.stopCmd] ++
          (if nabu_loop_breaks [NabuIter.data true, NabuIter.stopCmd] then
            [EventType.STOPPING, EventType.STOPPED] else [])) := by
  have h := C8_status_amended true true true [NabuIter.data true, NabuIter.stopCmd]
  exact ⟨h.1, (h.2.1 rfl rfl rfl).1⟩

end VoiceKit
